import Mathlib

/-!
Shallow embedding of the node-midi input binding (src/input.cpp): the
cross-thread event bridge (Callback / CallbackJs over a thread-safe
function) and the port lifecycle controller (OpenPort, OpenVirtualPort,
ClosePort, Destroy, setupCallback, closePortAndRemoveCallback), together
with the query and filter operations.

Machine integers are modelled as Nat/Int with explicit reduction modulo
2^32 where the code converts a JS number to a C unsigned int. The RtMidi
device handle is an external collaborator; its state that the binding
reads or writes (port count, open flag, callback registration, ignore
flags) is carried in RtMidiHandle, and its fallible operations are an
oracle (Driver) so that theorems quantify over every driver behaviour.
Each public operation returns its successor state, a trace of the
side-effecting driver and thread-safe-function calls it performed in
order, the pending JS exception if any, and its JS return value.
-/

namespace NodeMidi

/-- A JS value as seen through the N-API argument checks used by the code:
numbers are modelled as rationals (fractional and negative values
included), since the code accepts any JS number and converts it. -/
inductive JsValue where
  | num (q : ℚ)
  | str (s : String)
  | jsBool (b : Bool)
  | jsFunc
  | undef
deriving DecidableEq

/-- A pending JS exception, by N-API class and message, matching the throw
sites of the code: Napi.Error, Napi.TypeError, Napi.RangeError. -/
inductive NapiError where
  | error (msg : String)
  | typeError (msg : String)
  | rangeError (msg : String)
deriving DecidableEq

/-- The JS value returned by a public operation. -/
inductive JsResult where
  | null
  | num (n : Nat)
  | str (s : String)
  | jsBool (b : Bool)
deriving DecidableEq

/-- One side-effecting call on the device handle or the thread-safe
function, recorded in the order the code performs them. -/
inductive Act where
  | tsfnCreate
  | setCallback
  | driverOpenPort (n : Nat)
  | driverOpenVirtual (name : String)
  | driverClosePort
  | cancelCallback
  | tsfnAbort
  | tsfnRelease
  | handleReset
  | driverIgnoreTypes (sysex timing sensing : Bool)
deriving DecidableEq

/-- The slice of RtMidiIn state the binding reads or writes. -/
structure RtMidiHandle where
  portCount : Nat
  portOpen : Bool
  callbackSet : Bool
  igSysex : Bool
  igTiming : Bool
  igSensing : Bool
deriving DecidableEq

/-- The NodeMidiInput object state: the optional device handle (none once
destroyed) and the configured flag guarding the thread-safe function. -/
structure NodeMidiInput where
  handle : Option RtMidiHandle
  configured : Bool
deriving DecidableEq

/-- Failure oracle for the fallible RtMidi calls the binding wraps in
try/catch: which openPort and openVirtualPort calls throw RtMidiError,
and what getPortName returns or whether it throws. -/
structure Driver where
  openPortFails : Nat → Bool
  openVirtualFails : String → Bool
  portName : Nat → Except Unit String

/-- Result of one public operation: successor object state, ordered trace
of driver and thread-safe-function calls, pending exception, JS return. -/
structure OpResult where
  state : NodeMidiInput
  trace : List Act
  err : Option NapiError
  ret : JsResult
deriving DecidableEq

/-- ECMAScript ToUint32, as performed by the implicit conversion of a
Napi.Number to a C unsigned int: truncate toward zero, then reduce
modulo 2^32 into the range [0, 2^32). -/
def jsToUint32 (q : ℚ) : Nat :=
  ((q.num.tdiv (q.den : Int)) % (2 ^ 32 : Int)).toNat

/-- The argument check shared by GetPortName and OpenPort: fails when
there is no argument or the first argument is not a number, otherwise
yields the number. -/
def argNumber : List JsValue → Option ℚ
  | .num q :: _ => some q
  | _ => none

/-- The argument check of OpenVirtualPort: fails when there is no argument
or the first argument is not a string. -/
def argString : List JsValue → Option String
  | .str s :: _ => some s
  | _ => none

/-- The argument check of IgnoreTypes: exactly three arguments, all
booleans. -/
def argBools3 : List JsValue → Option (Bool × Bool × Bool)
  | [.jsBool a, .jsBool b, .jsBool c] => some (a, b, c)
  | _ => none

/-- The result every guarded operation produces when the handle has been
reset: pending Napi.Error with message "RtMidi not initialised", null
return, unchanged state, no side effect. -/
def notInitErr (s : NodeMidiInput) : OpResult :=
  ⟨s, [], some (.error "RtMidi not initialised"), .null⟩

/-! ### The event envelope and the cross-thread bridge -/

/-- The heap record built by the driver-thread callback: delta time in
seconds, the raw message length, and the copied bytes. -/
structure MidiMessage where
  deltaTime : ℚ
  messageLength : Nat
  message : List Nat
deriving DecidableEq

/-- memcpy of n bytes from a source buffer. -/
def memcpyBytes (src : List Nat) (n : Nat) : List Nat := src.take n

/-- NodeMidiInput::Callback, run on the driver thread: copies the
transient driver buffer into a fresh MidiMessage envelope. The
subsequent NonBlockingCall enqueues that envelope for CallbackJs. -/
def Callback (deltaTime : ℚ) (message : List Nat) : MidiMessage :=
  ⟨deltaTime, message.length, memcpyBytes message message.length⟩

/-- One consumer-side handler invocation: the two JS arguments. -/
structure JsDelivery where
  deltaTime : ℚ
  payload : List Nat
deriving DecidableEq

/-- The two deallocations CallbackJs performs on an envelope. -/
inductive FreeAct where
  | freeBuffer
  | freeEnvelope
deriving DecidableEq

/-- Observable outcome of one CallbackJs run: handler invocations made,
deallocations performed in order, and the exception it raises (the
function body has no throw site, so this is none on every path). -/
structure CbResult where
  calls : List JsDelivery
  frees : List FreeAct
  err : Option NapiError
deriving DecidableEq

/-- Napi.Buffer.Copy of len bytes from the envelope buffer. -/
def bufferCopy (data : List Nat) (len : Nat) : List Nat := data.take len

/-- NodeMidiInput::CallbackJs, run on the consumer context for one queued
envelope: when the environment and callback are still alive it invokes
the handler once with the delta time and a copy of the message bytes;
on every path it then frees the byte buffer and the envelope. -/
def CallbackJs (envOk cbOk : Bool) (data : MidiMessage) : CbResult :=
  let calls :=
    if envOk && cbOk then
      [⟨data.deltaTime, bufferCopy data.message data.messageLength⟩]
    else []
  ⟨calls, [.freeBuffer, .freeEnvelope], none⟩

/-- Consumer-side processing of the FIFO envelope queue while the
environment is alive: CallbackJs once per envelope, in queue order. -/
def processQueue (queue : List MidiMessage) : List JsDelivery :=
  queue.flatMap fun d => (CallbackJs true true d).calls

/-! ### The port lifecycle controller and the public operations -/

/-- NodeMidiInput::setupCallback: a no-op when already configured;
otherwise set the configured flag, create the thread-safe function and
register the driver callback, in that order. -/
def setupCallback (s : NodeMidiInput) : NodeMidiInput × List Act :=
  if s.configured then (s, [])
  else
    ({ handle := s.handle.map fun h => { h with callbackSet := true },
       configured := true },
     [.tsfnCreate, .setCallback])

/-- NodeMidiInput::closePortAndRemoveCallback: when the handle is alive,
close the port; then, when configured, clear the flag, cancel the driver
callback registration, and abort and release the thread-safe function. -/
def closePortAndRemoveCallback (s : NodeMidiInput) : NodeMidiInput × List Act :=
  match s.handle with
  | none => (s, [])
  | some h =>
    if s.configured then
      ({ handle := some { h with portOpen := false, callbackSet := false },
         configured := false },
       [.driverClosePort, .cancelCallback, .tsfnAbort, .tsfnRelease])
    else
      ({ s with handle := some { h with portOpen := false } },
       [.driverClosePort])

/-- NodeMidiInput::GetPortCount. -/
def GetPortCount (s : NodeMidiInput) : OpResult :=
  match s.handle with
  | none => notInitErr s
  | some h => ⟨s, [], none, .num h.portCount⟩

/-- NodeMidiInput::GetPortName: handle check, numeric argument check,
ToUint32 conversion, then the driver call with RtMidiError caught and
re-thrown as a Napi.TypeError with message "Internal RtMidi error". -/
def GetPortName (drv : Driver) (s : NodeMidiInput) (args : List JsValue) :
    OpResult :=
  match s.handle with
  | none => notInitErr s
  | some _ =>
    match argNumber args with
    | none => ⟨s, [], some (.typeError "First argument must be an integer"), .null⟩
    | some q =>
      match drv.portName (jsToUint32 q) with
      | .ok name => ⟨s, [], none, .str name⟩
      | .error _ => ⟨s, [], some (.typeError "Internal RtMidi error"), .null⟩

/-- NodeMidiInput::OpenPort: handle check, numeric argument check,
ToUint32 conversion, range check against the driver port count, then
setupCallback followed by the driver openPort inside try/catch. -/
def OpenPort (drv : Driver) (s : NodeMidiInput) (args : List JsValue) :
    OpResult :=
  match s.handle with
  | none => notInitErr s
  | some h =>
    match argNumber args with
    | none => ⟨s, [], some (.typeError "First argument must be an integer"), .null⟩
    | some q =>
      let portNumber := jsToUint32 q
      if h.portCount ≤ portNumber then
        ⟨s, [], some (.rangeError "Invalid MIDI port number"), .null⟩
      else
        let p := setupCallback s
        if drv.openPortFails portNumber then
          ⟨p.1, p.2 ++ [.driverOpenPort portNumber],
           some (.error "Internal RtMidi error"), .null⟩
        else
          ⟨{ p.1 with handle := p.1.handle.map fun h2 => { h2 with portOpen := true } },
           p.2 ++ [.driverOpenPort portNumber], none, .null⟩

/-- NodeMidiInput::OpenVirtualPort: handle check, string argument check,
then setupCallback followed by the driver openVirtualPort inside
try/catch. -/
def OpenVirtualPort (drv : Driver) (s : NodeMidiInput) (args : List JsValue) :
    OpResult :=
  match s.handle with
  | none => notInitErr s
  | some _ =>
    match argString args with
    | none => ⟨s, [], some (.typeError "First argument must be a string"), .null⟩
    | some name =>
      let p := setupCallback s
      if drv.openVirtualFails name then
        ⟨p.1, p.2 ++ [.driverOpenVirtual name],
         some (.error "Internal RtMidi error"), .null⟩
      else
        ⟨{ p.1 with handle := p.1.handle.map fun h2 => { h2 with portOpen := true } },
         p.2 ++ [.driverOpenVirtual name], none, .null⟩

/-- NodeMidiInput::ClosePort: handle check, then the shared teardown
routine. -/
def ClosePort (s : NodeMidiInput) : OpResult :=
  match s.handle with
  | none => notInitErr s
  | some _ =>
    let p := closePortAndRemoveCallback s
    ⟨p.1, p.2, none, .null⟩

/-- NodeMidiInput::Destroy: a silent no-op when already destroyed;
otherwise the shared teardown routine followed by handle.reset(). -/
def Destroy (s : NodeMidiInput) : OpResult :=
  match s.handle with
  | none => ⟨s, [], none, .null⟩
  | some _ =>
    let p := closePortAndRemoveCallback s
    ⟨{ p.1 with handle := none }, p.2 ++ [.handleReset], none, .null⟩

/-- The NodeMidiInput destructor: the shared teardown routine followed by
handle.reset(), with no JS-visible result. -/
def destructor (s : NodeMidiInput) : NodeMidiInput × List Act :=
  let p := closePortAndRemoveCallback s
  ({ p.1 with handle := none }, p.2 ++ [.handleReset])

/-- NodeMidiInput::IsPortOpen. -/
def IsPortOpen (s : NodeMidiInput) : OpResult :=
  match s.handle with
  | none => notInitErr s
  | some h => ⟨s, [], none, .jsBool h.portOpen⟩

/-- NodeMidiInput::IgnoreTypes: handle check, three-boolean argument
check, then the driver ignoreTypes call. -/
def IgnoreTypes (s : NodeMidiInput) (args : List JsValue) : OpResult :=
  match s.handle with
  | none => notInitErr s
  | some h =>
    match argBools3 args with
    | none => ⟨s, [], some (.typeError "Arguments must be boolean"), .null⟩
    | some (a, b, c) =>
      ⟨{ s with handle := some { h with igSysex := a, igTiming := b, igSensing := c } },
       [.driverIgnoreTypes a b c], none, .null⟩

/-! ### Trace predicates -/

/-- True when every driver open call and every driver callback
registration in the trace happens at a point where the thread-safe
function exists, threading the armed flag through tsfnCreate and
tsfnRelease actions. -/
def opensAfterArmed : Bool → List Act → Bool
  | _, [] => true
  | _, .tsfnCreate :: r => opensAfterArmed true r
  | _, .tsfnRelease :: r => opensAfterArmed false r
  | armed, .setCallback :: r => armed && opensAfterArmed armed r
  | armed, .driverOpenPort _ :: r => armed && opensAfterArmed armed r
  | armed, .driverOpenVirtual _ :: r => armed && opensAfterArmed armed r
  | armed, _ :: r => opensAfterArmed armed r

/-- An action that disarms the bridge: aborting or releasing the
thread-safe function. -/
def isDisarmAct : Act → Bool
  | .tsfnAbort => true
  | .tsfnRelease => true
  | _ => false

/-- The teardown ordering asserted by the specification sentence under
test: some bridge-disarm action occurs strictly before the driver
callback cancellation, which occurs strictly before the port close. -/
def disarmThenCancelThenClose (t : List Act) : Bool :=
  match t.findIdx? isDisarmAct,
        t.findIdx? (fun a => decide (a = Act.cancelCallback)),
        t.findIdx? (fun a => decide (a = Act.driverClosePort)) with
  | some i, some j, some k => decide (i < j) && decide (j < k)
  | _, _, _ => false

/-! ### Concrete fixtures used by witnesses and counterexamples -/

/-- A device handle with two ports, port closed, callback unregistered. -/
def exHandle : RtMidiHandle := ⟨2, false, false, false, false, false⟩

/-- An idle object: live handle, bridge not yet armed. -/
def exState : NodeMidiInput := ⟨some exHandle, false⟩

/-- A device handle with one port, port open, callback registered. -/
def exArmedHandle : RtMidiHandle := ⟨1, true, true, false, false, false⟩

/-- An open object: live handle, bridge armed. -/
def exArmedState : NodeMidiInput := ⟨some exArmedHandle, true⟩

/-- A destroyed object: handle reset. -/
def exDeadState : NodeMidiInput := ⟨none, false⟩

/-- A driver on which every wrapped call succeeds for ports 0 and 1 and
getPortName throws beyond them. -/
def exDriver : Driver :=
  ⟨fun _ => false, fun _ => false,
   fun i => if i < 2 then .ok "Midi Through" else .error ()⟩

/-- A driver on which every open call throws and getPortName throws
beyond ports 0 and 1. -/
def exFailDriver : Driver :=
  ⟨fun _ => true, fun _ => true,
   fun i => if i < 2 then .ok "Midi Through" else .error ()⟩

/-! ### Claims -/

/-- Helper: CallbackJs on an envelope built by Callback, with the
environment and callback alive, invokes the handler exactly once with
the original delta time and the byte-identical payload. -/
theorem callbackJs_callback_calls (t : ℚ) (m : List Nat) :
    (CallbackJs true true (Callback t m)).calls = [⟨t, m⟩] := by
  simp [CallbackJs, Callback, bufferCopy, memcpyBytes]

/-- C1: processing the envelope queue built from the received messages
invokes the consumer handler exactly once per message, in delivery
order, with the delta-time timestamp in seconds and a payload
byte-identical to the driver source buffer; the stored message length
equals the raw message length exactly. -/
theorem received_messages_delivered_exactly (msgs : List (ℚ × List Nat)) :
    processQueue (msgs.map fun p => Callback p.1 p.2) =
      msgs.map (fun p => ⟨p.1, p.2⟩) ∧
    ∀ p ∈ msgs, (Callback p.1 p.2).messageLength = p.2.length := by
  constructor
  · induction msgs with
    | nil => rfl
    | cons p rest ih =>
      simp only [List.map_cons, processQueue, List.flatMap_cons] at ih ⊢
      rw [callbackJs_callback_calls]
      simp [ih]
  · intro p _
    rfl

/-- C6: when the consumer environment or the callback reference is gone
at invocation time, CallbackJs does not invoke the handler, still frees
the byte buffer and the envelope exactly once each on that exit path,
and surfaces no error to the consumer. -/
theorem aborted_delivery_drops (envOk cbOk : Bool) (data : MidiMessage)
    (habort : ¬(envOk = true ∧ cbOk = true)) :
    (CallbackJs envOk cbOk data).calls = [] ∧
    (CallbackJs envOk cbOk data).frees.count .freeBuffer = 1 ∧
    (CallbackJs envOk cbOk data).frees.count .freeEnvelope = 1 ∧
    (CallbackJs envOk cbOk data).err = none := by
  have hf : (CallbackJs envOk cbOk data).frees = [.freeBuffer, .freeEnvelope] := rfl
  refine ⟨?_, by rw [hf]; decide, by rw [hf]; decide, rfl⟩
  cases envOk with
  | false => rfl
  | true =>
    cases cbOk with
    | false => rfl
    | true => exact absurd ⟨rfl, rfl⟩ habort

/-- Witness for C6 at a dead environment and a concrete note-on
envelope. -/
theorem aborted_delivery_drops_witness :
    ¬((false : Bool) = true ∧ (true : Bool) = true) ∧
    ((CallbackJs false true ⟨0, 3, [144, 64, 127]⟩).calls = [] ∧
     (CallbackJs false true ⟨0, 3, [144, 64, 127]⟩).frees.count .freeBuffer = 1 ∧
     (CallbackJs false true ⟨0, 3, [144, 64, 127]⟩).frees.count .freeEnvelope = 1 ∧
     (CallbackJs false true ⟨0, 3, [144, 64, 127]⟩).err = none) :=
  ⟨by decide, aborted_delivery_drops false true ⟨0, 3, [144, 64, 127]⟩ (by decide)⟩

/-- C2: on both OpenPort and OpenVirtualPort, once the preconditions
pass, every driver open call (and every driver callback registration) in
the trace happens while the thread-safe function exists, and from an
unarmed state the trace is exactly tsfnCreate, setCallback, then the
driver open — arming strictly precedes opening the port. -/
theorem open_arms_bridge_before_port (drv : Driver) (s : NodeMidiInput)
    (h : RtMidiHandle) (q : ℚ) (name : String)
    (hh : s.handle = some h) (hq : jsToUint32 q < h.portCount) :
    opensAfterArmed s.configured (OpenPort drv s [.num q]).trace = true ∧
    opensAfterArmed s.configured (OpenVirtualPort drv s [.str name]).trace = true ∧
    (s.configured = false →
      (OpenPort drv s [.num q]).trace =
        [.tsfnCreate, .setCallback, .driverOpenPort (jsToUint32 q)] ∧
      (OpenVirtualPort drv s [.str name]).trace =
        [.tsfnCreate, .setCallback, .driverOpenVirtual name]) := by
  have hnot : ¬ h.portCount ≤ jsToUint32 q := Nat.not_le.mpr hq
  cases hc : s.configured <;>
    cases hf : drv.openPortFails (jsToUint32 q) <;>
      cases hv : drv.openVirtualFails name <;>
        simp [OpenPort, OpenVirtualPort, setupCallback, argNumber, argString,
          hh, hc, hf, hv, hnot, opensAfterArmed]

/-- Witness for C2 at the idle two-port fixture with index 1. -/
theorem open_arms_bridge_before_port_witness :
    exState.handle = some exHandle ∧ jsToUint32 1 < exHandle.portCount ∧
    (opensAfterArmed exState.configured
        (OpenPort exDriver exState [.num 1]).trace = true ∧
     opensAfterArmed exState.configured
        (OpenVirtualPort exDriver exState [.str "Test"]).trace = true ∧
     (exState.configured = false →
       (OpenPort exDriver exState [.num 1]).trace =
         [.tsfnCreate, .setCallback, .driverOpenPort (jsToUint32 1)] ∧
       (OpenVirtualPort exDriver exState [.str "Test"]).trace =
         [.tsfnCreate, .setCallback, .driverOpenVirtual "Test"])) :=
  ⟨rfl, by decide,
   open_arms_bridge_before_port exDriver exState exHandle 1 "Test" rfl (by decide)⟩

/-- C3 counterexample: at a concrete armed open object, the teardown
trace of closePortAndRemoveCallback is driverClosePort, cancelCallback,
tsfnAbort, tsfnRelease — so the order asserted by the claim (disarm the
bridge first, then cancel the registration, then close the port) is
false: the code closes the port first and disarms last. -/
theorem teardown_disarm_first_counterexample :
    (closePortAndRemoveCallback exArmedState).2 =
      [.driverClosePort, .cancelCallback, .tsfnAbort, .tsfnRelease] ∧
    disarmThenCancelThenClose (closePortAndRemoveCallback exArmedState).2 = false := by
  decide

/-- C3 amended: on every ClosePort (and on the close path reached from
Destroy and from the destructor) of an armed object, the teardown steps
happen in this order: close the port, then cancel the driver callback
registration, then disarm the bridge (abort and release the thread-safe
function). -/
theorem teardown_close_cancel_disarm_order (s : NodeMidiInput)
    (h : RtMidiHandle) (hh : s.handle = some h) (hc : s.configured = true) :
    (closePortAndRemoveCallback s).2 =
      [.driverClosePort, .cancelCallback, .tsfnAbort, .tsfnRelease] ∧
    (ClosePort s).trace =
      [.driverClosePort, .cancelCallback, .tsfnAbort, .tsfnRelease] ∧
    (Destroy s).trace =
      [.driverClosePort, .cancelCallback, .tsfnAbort, .tsfnRelease, .handleReset] ∧
    (destructor s).2 =
      [.driverClosePort, .cancelCallback, .tsfnAbort, .tsfnRelease, .handleReset] := by
  simp [ClosePort, Destroy, destructor, closePortAndRemoveCallback, hh, hc]

/-- Witness for the amended C3 at the armed one-port fixture. -/
theorem teardown_close_cancel_disarm_order_witness :
    exArmedState.handle = some exArmedHandle ∧ exArmedState.configured = true ∧
    ((closePortAndRemoveCallback exArmedState).2 =
       [.driverClosePort, .cancelCallback, .tsfnAbort, .tsfnRelease] ∧
     (ClosePort exArmedState).trace =
       [.driverClosePort, .cancelCallback, .tsfnAbort, .tsfnRelease] ∧
     (Destroy exArmedState).trace =
       [.driverClosePort, .cancelCallback, .tsfnAbort, .tsfnRelease, .handleReset] ∧
     (destructor exArmedState).2 =
       [.driverClosePort, .cancelCallback, .tsfnAbort, .tsfnRelease, .handleReset]) :=
  ⟨rfl, rfl,
   teardown_close_cancel_disarm_order exArmedState exArmedHandle rfl rfl⟩

/-- Helper: Destroy always leaves the handle reset. -/
theorem destroy_handle_none (s : NodeMidiInput) : (Destroy s).state.handle = none := by
  cases hs : s.handle <;> simp [Destroy, hs]

/-- Helper: on any state whose handle is reset, every guarded operation
returns the NotInitialized result unchanged-state, and Destroy is a
silent no-op. -/
theorem ops_fail_of_handle_none (drv : Driver) (d : NodeMidiInput)
    (args : List JsValue) (hd : d.handle = none) :
    GetPortCount d = notInitErr d ∧
    GetPortName drv d args = notInitErr d ∧
    OpenPort drv d args = notInitErr d ∧
    OpenVirtualPort drv d args = notInitErr d ∧
    ClosePort d = notInitErr d ∧
    IsPortOpen d = notInitErr d ∧
    IgnoreTypes d args = notInitErr d ∧
    Destroy d = ⟨d, [], none, .null⟩ := by
  refine ⟨?_, ?_, ?_, ?_, ?_, ?_, ?_, ?_⟩ <;>
    simp [GetPortCount, GetPortName, OpenPort, OpenVirtualPort, ClosePort,
      IsPortOpen, IgnoreTypes, Destroy, hd]

/-- C4: after destroy(), every operation — getPortCount, getPortName,
openPort, openVirtualPort, closePort, isPortOpen, ignoreTypes — fails
with the NotInitialized error ("RtMidi not initialised"), leaving the
state unchanged and performing no side-effecting call, while a repeated
destroy() is a silent no-op rather than an error. -/
theorem destroyed_operations_fail (drv : Driver) (s : NodeMidiInput)
    (args : List JsValue) :
    GetPortCount (Destroy s).state = notInitErr (Destroy s).state ∧
    GetPortName drv (Destroy s).state args = notInitErr (Destroy s).state ∧
    OpenPort drv (Destroy s).state args = notInitErr (Destroy s).state ∧
    OpenVirtualPort drv (Destroy s).state args = notInitErr (Destroy s).state ∧
    ClosePort (Destroy s).state = notInitErr (Destroy s).state ∧
    IsPortOpen (Destroy s).state = notInitErr (Destroy s).state ∧
    IgnoreTypes (Destroy s).state args = notInitErr (Destroy s).state ∧
    Destroy (Destroy s).state = ⟨(Destroy s).state, [], none, .null⟩ :=
  ops_fail_of_handle_none drv (Destroy s).state args (destroy_handle_none s)

/-- Helper: ToUint32 of a natural-number-valued JS number below 2^32 is
that number. -/
theorem jsToUint32_natCast (n : Nat) (hn : n < 2 ^ 32) :
    jsToUint32 (n : ℚ) = n := by
  have h1 : ((n : ℚ)).num = (n : Int) := Rat.num_natCast n
  have h2 : ((n : ℚ)).den = 1 := Rat.den_natCast n
  simp only [jsToUint32, h1, h2]
  rw [Nat.cast_one, Int.tdiv_one, Int.emod_eq_of_lt (by positivity)
    (by exact_mod_cast hn)]
  simp

/-- C5: openPort fails with the RangeError "Invalid MIDI port number" and
performs no arming and no open attempt whenever the converted index is
at least the port count; and when the port count is positive, index
portCount - 1 passes the range check and the trace proceeds to the
driver open call for that port. -/
theorem openPort_range_check (drv : Driver) (s : NodeMidiInput)
    (h : RtMidiHandle) (q : ℚ) (hh : s.handle = some h) :
    (h.portCount ≤ jsToUint32 q →
      OpenPort drv s [.num q] =
        ⟨s, [], some (.rangeError "Invalid MIDI port number"), .null⟩) ∧
    (0 < h.portCount → h.portCount ≤ 2 ^ 32 →
      Act.driverOpenPort (h.portCount - 1) ∈
        (OpenPort drv s [.num ((h.portCount - 1 : Nat) : ℚ)]).trace) := by
  constructor
  · intro hge
    simp [OpenPort, argNumber, hh, hge]
  · intro hpos hle
    have hu : jsToUint32 ((h.portCount - 1 : Nat) : ℚ) = h.portCount - 1 :=
      jsToUint32_natCast _ (by omega)
    have hlt : ¬ h.portCount ≤ h.portCount - 1 := by omega
    cases hf : drv.openPortFails (h.portCount - 1) <;>
      simp [OpenPort, argNumber, hh, hu, hlt, hf]

/-- Witness for C5 at the idle two-port fixture: index 5 is out of range,
index 1 = portCount - 1 proceeds to the driver open. -/
theorem openPort_range_check_witness :
    exState.handle = some exHandle ∧
    (exHandle.portCount ≤ jsToUint32 5 →
      OpenPort exDriver exState [.num 5] =
        ⟨exState, [], some (.rangeError "Invalid MIDI port number"), .null⟩) ∧
    (0 < exHandle.portCount → exHandle.portCount ≤ 2 ^ 32 →
      Act.driverOpenPort (exHandle.portCount - 1) ∈
        (OpenPort exDriver exState [.num ((exHandle.portCount - 1 : Nat) : ℚ)]).trace) :=
  ⟨rfl, openPort_range_check exDriver exState exHandle 5 rfl⟩

/-- C7: when the driver openPort (or openVirtualPort) call throws after
arming, the bridge stays armed, the port stays closed, and the error is
reported synchronously to the caller as the pending Napi.Error
"Internal RtMidi error". -/
theorem failed_open_leaves_armed (drv : Driver) (s : NodeMidiInput)
    (h : RtMidiHandle) (q : ℚ) (name : String)
    (hh : s.handle = some h) (hopen : h.portOpen = false)
    (hq : jsToUint32 q < h.portCount)
    (hfail : drv.openPortFails (jsToUint32 q) = true)
    (hvfail : drv.openVirtualFails name = true) :
    ((OpenPort drv s [.num q]).state.configured = true ∧
     (∃ h2, (OpenPort drv s [.num q]).state.handle = some h2 ∧
        h2.portOpen = false) ∧
     (OpenPort drv s [.num q]).err = some (.error "Internal RtMidi error") ∧
     (OpenPort drv s [.num q]).ret = .null) ∧
    ((OpenVirtualPort drv s [.str name]).state.configured = true ∧
     (∃ h2, (OpenVirtualPort drv s [.str name]).state.handle = some h2 ∧
        h2.portOpen = false) ∧
     (OpenVirtualPort drv s [.str name]).err =
        some (.error "Internal RtMidi error") ∧
     (OpenVirtualPort drv s [.str name]).ret = .null) := by
  have hnot : ¬ h.portCount ≤ jsToUint32 q := Nat.not_le.mpr hq
  cases hc : s.configured <;>
    simp [OpenPort, OpenVirtualPort, setupCallback, argNumber, argString,
      hh, hc, hnot, hfail, hvfail, hopen]

/-- Witness for C7 at the idle two-port fixture with the all-throwing
driver. -/
theorem failed_open_leaves_armed_witness :
    exState.handle = some exHandle ∧ exHandle.portOpen = false ∧
    jsToUint32 0 < exHandle.portCount ∧
    exFailDriver.openPortFails (jsToUint32 0) = true ∧
    exFailDriver.openVirtualFails "Test" = true ∧
    (((OpenPort exFailDriver exState [.num 0]).state.configured = true ∧
      (∃ h2, (OpenPort exFailDriver exState [.num 0]).state.handle = some h2 ∧
         h2.portOpen = false) ∧
      (OpenPort exFailDriver exState [.num 0]).err =
         some (.error "Internal RtMidi error") ∧
      (OpenPort exFailDriver exState [.num 0]).ret = .null) ∧
     ((OpenVirtualPort exFailDriver exState [.str "Test"]).state.configured = true ∧
      (∃ h2, (OpenVirtualPort exFailDriver exState [.str "Test"]).state.handle =
         some h2 ∧ h2.portOpen = false) ∧
      (OpenVirtualPort exFailDriver exState [.str "Test"]).err =
         some (.error "Internal RtMidi error") ∧
      (OpenVirtualPort exFailDriver exState [.str "Test"]).ret = .null)) :=
  ⟨rfl, rfl, by decide, rfl, rfl,
   failed_open_leaves_armed exFailDriver exState exHandle 0 "Test"
     rfl rfl (by decide) rfl rfl⟩

/-- C8: every RtMidiError thrown by the driver during getPortName,
openPort or openVirtualPort is caught at the boundary and re-reported as
the pending typed "Internal RtMidi error" (a Napi.TypeError for
getPortName, a Napi.Error for the opens) with a null return, never left
to propagate; getPortName otherwise passes the driver string through
unchanged, and — with the out-of-range behaviour of the external driver
modelled from the spec as getPortName throwing on an index at or beyond
the port count — an out-of-range index yields the typed error and null,
never a garbage string. -/
theorem driver_errors_reported_typed (drv : Driver) (s : NodeMidiInput)
    (h : RtMidiHandle) (q : ℚ) (name : String) (hh : s.handle = some h) :
    (drv.portName (jsToUint32 q) = .error () →
      GetPortName drv s [.num q] =
        ⟨s, [], some (.typeError "Internal RtMidi error"), .null⟩) ∧
    (∀ nm, drv.portName (jsToUint32 q) = .ok nm →
      GetPortName drv s [.num q] = ⟨s, [], none, .str nm⟩) ∧
    (jsToUint32 q < h.portCount → drv.openPortFails (jsToUint32 q) = true →
      (OpenPort drv s [.num q]).err = some (.error "Internal RtMidi error") ∧
      (OpenPort drv s [.num q]).ret = .null) ∧
    (drv.openVirtualFails name = true →
      (OpenVirtualPort drv s [.str name]).err =
        some (.error "Internal RtMidi error") ∧
      (OpenVirtualPort drv s [.str name]).ret = .null) ∧
    ((∀ i, h.portCount ≤ i → drv.portName i = .error ()) →
      h.portCount ≤ jsToUint32 q →
      GetPortName drv s [.num q] =
        ⟨s, [], some (.typeError "Internal RtMidi error"), .null⟩) := by
  refine ⟨?_, ?_, ?_, ?_, ?_⟩
  · intro hp
    simp [GetPortName, argNumber, hh, hp]
  · intro nm hp
    simp [GetPortName, argNumber, hh, hp]
  · intro hq hf
    have hnot : ¬ h.portCount ≤ jsToUint32 q := Nat.not_le.mpr hq
    cases hc : s.configured <;>
      simp [OpenPort, setupCallback, argNumber, hh, hnot, hf, hc]
  · intro hv
    cases hc : s.configured <;>
      simp [OpenVirtualPort, setupCallback, argString, hh, hv, hc]
  · intro hdrv hge
    simp [GetPortName, argNumber, hh, hdrv _ hge]

/-- Witness for C8 with the all-throwing driver on the idle two-port
fixture: index 5 is out of range for the name query, index 0 is in range
for the opens. -/
theorem driver_errors_reported_typed_witness :
    GetPortName exFailDriver exState [.num 5] =
      ⟨exState, [], some (.typeError "Internal RtMidi error"), .null⟩ ∧
    GetPortName exFailDriver exState [.num 0] =
      ⟨exState, [], none, .str "Midi Through"⟩ ∧
    ((OpenPort exFailDriver exState [.num 0]).err =
       some (.error "Internal RtMidi error") ∧
     (OpenPort exFailDriver exState [.num 0]).ret = .null) ∧
    ((OpenVirtualPort exFailDriver exState [.str "V"]).err =
       some (.error "Internal RtMidi error") ∧
     (OpenVirtualPort exFailDriver exState [.str "V"]).ret = .null) :=
  ⟨(driver_errors_reported_typed exFailDriver exState exHandle 5 "V" rfl).1 rfl,
   (driver_errors_reported_typed exFailDriver exState exHandle 0 "V" rfl).2.1
     "Midi Through" rfl,
   (driver_errors_reported_typed exFailDriver exState exHandle 0 "V" rfl).2.2.1
     (by decide) rfl,
   (driver_errors_reported_typed exFailDriver exState exHandle 0 "V" rfl).2.2.2.1
     rfl⟩

/-- C9: setupCallback is a no-op when already configured, so a second
openPort while armed (including a retry after a failed open) is accepted
without arming again — the trace holds one thread-safe-function creation
and one driver callback registration when arming from idle and zero when
already armed, an open past validation always leaves configured set, and
only the close routine resets the flag to make arming possible again. -/
theorem rearm_only_after_close (drv : Driver) (s : NodeMidiInput)
    (h : RtMidiHandle) (q : ℚ)
    (hh : s.handle = some h) (hq : jsToUint32 q < h.portCount) :
    (s.configured = true → setupCallback s = (s, [])) ∧
    (OpenPort drv s [.num q]).state.configured = true ∧
    ((OpenPort drv s [.num q]).trace.count .tsfnCreate =
      if s.configured then 0 else 1) ∧
    ((OpenPort drv s [.num q]).trace.count .setCallback =
      if s.configured then 0 else 1) ∧
    (s.configured = true → drv.openPortFails (jsToUint32 q) = false →
      (OpenPort drv s [.num q]).err = none) ∧
    (closePortAndRemoveCallback s).1.configured = false := by
  have hnot : ¬ h.portCount ≤ jsToUint32 q := Nat.not_le.mpr hq
  cases hc : s.configured <;>
    cases hf : drv.openPortFails (jsToUint32 q) <;>
      simp [OpenPort, setupCallback, closePortAndRemoveCallback, argNumber,
        hh, hnot, hc, hf, List.count_cons, List.count_nil]

/-- Witness for C9 at the idle two-port fixture with index 0. -/
theorem rearm_only_after_close_witness :
    exState.handle = some exHandle ∧ jsToUint32 0 < exHandle.portCount ∧
    ((exState.configured = true → setupCallback exState = (exState, [])) ∧
     (OpenPort exDriver exState [.num 0]).state.configured = true ∧
     ((OpenPort exDriver exState [.num 0]).trace.count .tsfnCreate =
       if exState.configured then 0 else 1) ∧
     ((OpenPort exDriver exState [.num 0]).trace.count .setCallback =
       if exState.configured then 0 else 1) ∧
     (exState.configured = true →
       exDriver.openPortFails (jsToUint32 0) = false →
       (OpenPort exDriver exState [.num 0]).err = none) ∧
     (closePortAndRemoveCallback exState).1.configured = false) :=
  ⟨rfl, by decide,
   rearm_only_after_close exDriver exState exHandle 0 rfl (by decide)⟩

/-- C10: any numeric first argument passes the type check of openPort and
getPortName and is converted by ToUint32 — truncation toward zero then
reduction modulo 2^32 — before use: negative and fractional indices are
not rejected, -1 converts to 2^32 - 1 and 1.5 converts to 1, the
RangeError of openPort occurs exactly when the converted value reaches
the port count, and getPortName queries the driver at the converted
value. -/
theorem numeric_index_converted_touint32 (drv : Driver) (s : NodeMidiInput)
    (h : RtMidiHandle) (q : ℚ) (hh : s.handle = some h) :
    jsToUint32 (-1 : ℚ) = 2 ^ 32 - 1 ∧
    jsToUint32 (1.5 : ℚ) = 1 ∧
    (OpenPort drv s [.num q]).err ≠
      some (.typeError "First argument must be an integer") ∧
    ((OpenPort drv s [.num q]).err =
        some (.rangeError "Invalid MIDI port number") ↔
      h.portCount ≤ jsToUint32 q) ∧
    (GetPortName drv s [.num q] =
      match drv.portName (jsToUint32 q) with
      | .ok nm => ⟨s, [], none, .str nm⟩
      | .error _ => ⟨s, [], some (.typeError "Internal RtMidi error"), .null⟩) := by
  refine ⟨by decide, ?_, ?_, ?_, ?_⟩
  · have h1 : ((1.5 : ℚ)).num = 3 := by norm_num
    have h2 : ((1.5 : ℚ)).den = 2 := by norm_num
    rw [jsToUint32, h1, h2]
    decide
  · by_cases hge : h.portCount ≤ jsToUint32 q
    · simp [OpenPort, argNumber, hh, hge]
    · cases hc : s.configured <;>
        cases hf : drv.openPortFails (jsToUint32 q) <;>
          simp [OpenPort, setupCallback, argNumber, hh, hge, hc, hf]
  · by_cases hge : h.portCount ≤ jsToUint32 q
    · simp [OpenPort, argNumber, hh, hge]
    · cases hc : s.configured <;>
        cases hf : drv.openPortFails (jsToUint32 q) <;>
          simp [OpenPort, setupCallback, argNumber, hh, hge, hc, hf]
  · cases hp : drv.portName (jsToUint32 q) <;>
      simp [GetPortName, argNumber, hh, hp]

/-- Witness for C10 at the idle two-port fixture with the index -1, which
converts to 2^32 - 1 and is therefore range-rejected. -/
theorem numeric_index_converted_touint32_witness :
    exState.handle = some exHandle ∧
    (jsToUint32 (-1 : ℚ) = 2 ^ 32 - 1 ∧
     jsToUint32 (1.5 : ℚ) = 1 ∧
     (OpenPort exDriver exState [.num (-1)]).err ≠
       some (.typeError "First argument must be an integer") ∧
     ((OpenPort exDriver exState [.num (-1)]).err =
         some (.rangeError "Invalid MIDI port number") ↔
       exHandle.portCount ≤ jsToUint32 (-1)) ∧
     (GetPortName exDriver exState [.num (-1)] =
       match exDriver.portName (jsToUint32 (-1)) with
       | .ok nm => ⟨exState, [], none, .str nm⟩
       | .error _ =>
         ⟨exState, [], some (.typeError "Internal RtMidi error"), .null⟩)) :=
  ⟨rfl, numeric_index_converted_touint32 exDriver exState exHandle (-1) rfl⟩

end NodeMidi
